import Mathlib

/-!
Verification of the mbed STM32 QSPI HAL backend (targets/TARGET_STM/qspi_api.c)
and the thin C++ driver front-end (drivers/QSPI.h).

The C code is shallowly embedded: the command-descriptor preparation is a pure
function from the mbed command struct and the caller-provided ST command struct
to the updated ST command struct; each HAL-backed operation is parameterised by
the success/failure outcome of every vendor HAL call it may issue and returns,
besides its status code, the list of blocking vendor HAL calls it actually
performed, in order.  Machine integers are modelled as Nat, with the C
`uint32_t`/`int` conversion made explicit where it matters (qspi_frequency).
-/

namespace QspiModel

/-! ### Enumerations and vendor register constants

`qspi_bus_width_t` is a C enumeration; a C enum variable can hold any integer
value and `qspi_prepare_command` handles every non-listed value in a `default:`
branch, so bus widths are modelled as `Nat` with the three named values.
Modelled from the mbed HAL header `qspi_api.h` (declarations only; the header
itself is not part of the sources, the values are the default C enumeration
numbering). -/

def QSPI_CFG_BUS_SINGLE : Nat := 0

def QSPI_CFG_BUS_DUAL : Nat := 1

def QSPI_CFG_BUS_QUAD : Nat := 2

/-- The mbed HAL status enumeration `qspi_status_t`: exactly three codes. -/
inductive QspiStatus where
  | QSPI_STATUS_OK
  | QSPI_STATUS_ERROR
  | QSPI_STATUS_INVALID_PARAMETER
deriving DecidableEq

open QspiStatus

/-! ST vendor HAL register-field constants (stm32 HAL QUADSPI header values,
CCR register bit fields).  Only their identity as distinct field values
matters to the driver code. -/

def QSPI_INSTRUCTION_NONE : Nat := 0x00000000

def QSPI_INSTRUCTION_1_LINE : Nat := 0x00000100

def QSPI_INSTRUCTION_2_LINES : Nat := 0x00000200

def QSPI_INSTRUCTION_4_LINES : Nat := 0x00000300

def QSPI_ADDRESS_NONE : Nat := 0x00000000

def QSPI_ADDRESS_1_LINE : Nat := 0x00000400

def QSPI_ADDRESS_2_LINES : Nat := 0x00000800

def QSPI_ADDRESS_4_LINES : Nat := 0x00000C00

def QSPI_ALTERNATE_BYTES_NONE : Nat := 0x00000000

def QSPI_ALTERNATE_BYTES_1_LINE : Nat := 0x00004000

def QSPI_ALTERNATE_BYTES_2_LINES : Nat := 0x00008000

def QSPI_ALTERNATE_BYTES_4_LINES : Nat := 0x0000C000

def QSPI_DATA_NONE : Nat := 0x00000000

def QSPI_DATA_1_LINE : Nat := 0x01000000

def QSPI_DATA_2_LINES : Nat := 0x02000000

def QSPI_DATA_4_LINES : Nat := 0x03000000

def QUADSPI_CCR_ADSIZE_Pos : Nat := 12

def QUADSPI_CCR_ADSIZE_Msk : Nat := 0x00003000

def QUADSPI_CCR_ABSIZE_Pos : Nat := 16

def QUADSPI_CCR_ABSIZE_Msk : Nat := 0x00030000

def QSPI_SIOO_INST_EVERY_CMD : Nat := 0x00000000

def QSPI_DDR_MODE_DISABLE : Nat := 0x00000000

def QSPI_DDR_HHC_ANALOG_DELAY : Nat := 0x00000000

def QSPI_SAMPLE_SHIFTING_HALFCYCLE : Nat := 0x00000010

def QSPI_CS_HIGH_TIME_5_CYCLE : Nat := 0x00000400

def QSPI_CLOCK_MODE_0 : Nat := 0x00000000

def QSPI_CLOCK_MODE_3 : Nat := 0x00000001

def QSPI_FLASH_SIZE_DEFAULT : Nat := 32

/-! ### The mbed command descriptor `qspi_command_t`

Only the fields the C file reads are modelled; the phase structs carry a bus
width, an enable flag, a value and a size exactly as the code consumes them. -/

structure InstructionPhase where
  bus_width : Nat
  value : Nat
deriving DecidableEq

structure AddressPhase where
  bus_width : Nat
  disabled : Bool
  value : Nat
  size : Nat
deriving DecidableEq

structure AltPhase where
  bus_width : Nat
  disabled : Bool
  value : Nat
  size : Nat
deriving DecidableEq

structure DataPhase where
  bus_width : Nat
deriving DecidableEq

structure QspiCommand where
  instruction : InstructionPhase
  address : AddressPhase
  alt : AltPhase
  data : DataPhase
  dummy_count : Nat
deriving DecidableEq

/-- The ST vendor command struct `QSPI_CommandTypeDef` (the fields the driver
writes).  All fields are `uint32_t` in C. -/
structure QSPI_CommandTypeDef where
  Instruction : Nat
  Address : Nat
  AlternateBytes : Nat
  AddressSize : Nat
  AlternateBytesSize : Nat
  DummyCycles : Nat
  InstructionMode : Nat
  AddressMode : Nat
  AlternateByteMode : Nat
  DataMode : Nat
  NbData : Nat
  SIOOMode : Nat
  DdrMode : Nat
  DdrHoldHalfCycle : Nat
deriving DecidableEq

/-- Shallow embedding of `qspi_prepare_command` (qspi_api.c, lines 39-132).

The `st0` parameter models the caller-provided `QSPI_CommandTypeDef` the C
function writes into: a field the C code does not assign on some path keeps
its incoming value on that path (in the C callers the struct is an
uninitialised local, so such fields are stack garbage).  The C `switch` on a
bus width becomes an `if` chain with the `default:` branch last; the `printf`
calls produce output only and are not modelled.  Assignments are performed in
source order, which is what makes line 112 overwrite the value stored by
line 111. -/
def qspi_prepare_command (command : QspiCommand) (st0 : QSPI_CommandTypeDef) :
    QSPI_CommandTypeDef :=
  let st1 := { st0 with InstructionMode :=
    if command.instruction.bus_width = QSPI_CFG_BUS_SINGLE then QSPI_INSTRUCTION_1_LINE
    else if command.instruction.bus_width = QSPI_CFG_BUS_DUAL then QSPI_INSTRUCTION_2_LINES
    else if command.instruction.bus_width = QSPI_CFG_BUS_QUAD then QSPI_INSTRUCTION_4_LINES
    else QSPI_INSTRUCTION_NONE }
  let st2 := { st1 with
    Instruction := command.instruction.value
    DummyCycles := command.dummy_count
    SIOOMode := QSPI_SIOO_INST_EVERY_CMD
    DdrMode := QSPI_DDR_MODE_DISABLE
    DdrHoldHalfCycle := QSPI_DDR_HHC_ANALOG_DELAY }
  let st3 := { st2 with AddressMode :=
    if command.address.bus_width = QSPI_CFG_BUS_SINGLE then QSPI_ADDRESS_1_LINE
    else if command.address.bus_width = QSPI_CFG_BUS_DUAL then QSPI_ADDRESS_2_LINES
    else if command.address.bus_width = QSPI_CFG_BUS_QUAD then QSPI_ADDRESS_4_LINES
    else QSPI_ADDRESS_NONE }
  let st4 :=
    if command.address.disabled = true then
      { st3 with AddressMode := QSPI_ADDRESS_NONE, AddressSize := 0 }
    else
      { st3 with
        Address := command.address.value
        AddressSize :=
          (command.address.size <<< QUADSPI_CCR_ADSIZE_Pos) &&& QUADSPI_CCR_ADSIZE_Msk }
  let st5 := { st4 with AlternateByteMode :=
    if command.alt.bus_width = QSPI_CFG_BUS_SINGLE then QSPI_ALTERNATE_BYTES_1_LINE
    else if command.alt.bus_width = QSPI_CFG_BUS_DUAL then QSPI_ALTERNATE_BYTES_2_LINES
    else if command.alt.bus_width = QSPI_CFG_BUS_QUAD then QSPI_ALTERNATE_BYTES_4_LINES
    else QSPI_ALTERNATE_BYTES_NONE }
  let st6 :=
    if command.alt.disabled = true then
      { st5 with AlternateByteMode := QSPI_ALTERNATE_BYTES_NONE, AlternateBytesSize := 0 }
    else
      let stA := { st5 with
        AlternateBytes := command.alt.value
        AlternateBytesSize :=
          (command.alt.size <<< QUADSPI_CCR_ABSIZE_Pos) &&& QUADSPI_CCR_ABSIZE_Msk }
      { stA with AlternateBytesSize := command.alt.size }
  let st7 := { st6 with DataMode :=
    if command.data.bus_width = QSPI_CFG_BUS_SINGLE then QSPI_DATA_1_LINE
    else if command.data.bus_width = QSPI_CFG_BUS_DUAL then QSPI_DATA_2_LINES
    else if command.data.bus_width = QSPI_CFG_BUS_QUAD then QSPI_DATA_4_LINES
    else QSPI_DATA_NONE }
  { st7 with NbData := 0 }

/-! ### HAL-backed operations

Each operation is parameterised by the outcome (HAL_OK or not) of every vendor
HAL call it may issue, and returns the list of blocking vendor HAL calls it
actually performed, in order, alongside its status code. -/

/-- The blocking vendor HAL entry points the driver invokes. -/
inductive HalCall where
  | halQspiInit
  | halQspiCommand
  | halQspiTransmit
  | halQspiReceive
deriving DecidableEq

open HalCall

/-- `QSPI_InitTypeDef` fields set by the driver (all `uint32_t`). -/
structure QSPI_InitTypeDef where
  ClockPrescaler : Nat
  FifoThreshold : Nat
  SampleShifting : Nat
  FlashSize : Nat
  ChipSelectHighTime : Nat
  ClockMode : Nat
deriving DecidableEq

/-- The driver object `qspi_t` (its `QSPI_HandleTypeDef handle`): the `Init`
configuration struct plus the peripheral base `Instance` pointer, modelled as
a number. -/
structure QspiHandle where
  Init : QSPI_InitTypeDef
  Instance : Nat
deriving DecidableEq

structure QspiObj where
  handle : QspiHandle
deriving DecidableEq

/-- Shallow embedding of `qspi_write` (qspi_api.c, lines 218-236).

`commandOk` / `transmitOk` model the outcomes of `HAL_QSPI_Command` and
`HAL_QSPI_Transmit` (both invoked with `HAL_QPSI_TIMEOUT_DEFAULT_VALUE`).
`st0` models the uninitialised local `QSPI_CommandTypeDef st_command`.
`length` models the value `*length` holds at entry.  The result is
(status, value of the caller's `*length` variable at return, final
`st_command`, trace of HAL calls performed).  The C body contains no store
through `length`, which is why the second component is the unchanged input. -/
def qspi_write (commandOk transmitOk : Bool) (command : QspiCommand)
    (st0 : QSPI_CommandTypeDef) (length : Nat) :
    QspiStatus × Nat × QSPI_CommandTypeDef × List HalCall :=
  let st := { qspi_prepare_command command st0 with NbData := length }
  if commandOk = false then
    (QSPI_STATUS_ERROR, length, st, [halQspiCommand])
  else if transmitOk = false then
    (QSPI_STATUS_ERROR, length, st, [halQspiCommand, halQspiTransmit])
  else
    (QSPI_STATUS_OK, length, st, [halQspiCommand, halQspiTransmit])

/-- Shallow embedding of `qspi_read` (qspi_api.c, lines 238-256): identical to
`qspi_write` except that the second HAL call is `HAL_QSPI_Receive`. -/
def qspi_read (commandOk receiveOk : Bool) (command : QspiCommand)
    (st0 : QSPI_CommandTypeDef) (length : Nat) :
    QspiStatus × Nat × QSPI_CommandTypeDef × List HalCall :=
  let st := { qspi_prepare_command command st0 with NbData := length }
  if commandOk = false then
    (QSPI_STATUS_ERROR, length, st, [halQspiCommand])
  else if receiveOk = false then
    (QSPI_STATUS_ERROR, length, st, [halQspiCommand, halQspiReceive])
  else
    (QSPI_STATUS_OK, length, st, [halQspiCommand, halQspiReceive])

/-- Shallow embedding of `qspi_command_transfer` (qspi_api.c, lines 258-293).

`txNull` / `rxNull` model `tx_data == NULL` / `rx_data == NULL`.  The write
sub-operation consumes the oracle bits `wCommandOk`/`wTransmitOk`, the read
sub-operation `rCommandOk`/`rReceiveOk`; the command-only branch issues a
single `HAL_QSPI_Command` whose outcome is `wCommandOk`.  `stC`, `stW`, `stR`
model the uninitialised local command structs of the command-only branch and
of the nested `qspi_write` / `qspi_read` calls.  The result is (status, trace
of HAL calls performed). -/
def qspi_command_transfer (wCommandOk wTransmitOk rCommandOk rReceiveOk : Bool)
    (command : QspiCommand) (stC stW stR : QSPI_CommandTypeDef)
    (txNull : Bool) (txSize : Nat) (rxNull : Bool) (rxSize : Nat) :
    QspiStatus × List HalCall :=
  if (txNull = true ∨ txSize = 0) ∧ (rxNull = true ∨ rxSize = 0) then
    let st := qspi_prepare_command command stC
    let st := { st with NbData := 1, DataMode := QSPI_DATA_NONE }
    if wCommandOk = false then
      (QSPI_STATUS_ERROR, [halQspiCommand])
    else
      (QSPI_STATUS_OK, [halQspiCommand])
  else
    if txNull = false ∧ txSize ≠ 0 then
      let w := qspi_write wCommandOk wTransmitOk command stW txSize
      if w.1 ≠ QSPI_STATUS_OK then
        (w.1, w.2.2.2)
      else if rxNull = false ∧ rxSize ≠ 0 then
        let r := qspi_read rCommandOk rReceiveOk command stR rxSize
        (r.1, w.2.2.2 ++ r.2.2.2)
      else
        (w.1, w.2.2.2)
    else
      if rxNull = false ∧ rxSize ≠ 0 then
        let r := qspi_read rCommandOk rReceiveOk command stR rxSize
        (r.1, r.2.2.2)
      else
        (QSPI_STATUS_OK, [])

/-- `qspi_free` (qspi_api.c, lines 193-197): the body is only
`// TODO` and `return QSPI_STATUS_ERROR;`. -/
def qspi_free (obj : QspiObj) : QspiStatus × QspiObj :=
  (QSPI_STATUS_ERROR, obj)

/-- The C conversion of a (32-bit) `int` value to `uint32_t`,
as a `Nat` in `[0, 2^32)`. -/
def intToUInt32 (z : Int) : Nat :=
  (z % (4294967296 : Int)).toNat

/-- Reinterpretation of a `uint32_t` value as a (32-bit) `int`. -/
def uint32ToInt (n : Nat) : Int :=
  if n % 4294967296 < 2147483648 then ((n % 4294967296 : Nat) : Int)
  else ((n % 4294967296 : Nat) : Int) - 4294967296

/-- Shallow embedding of `qspi_frequency` (qspi_api.c, lines 199-216).

`hclk` models the `uint32_t` value returned by the external
`HAL_RCC_GetHCLKFreq()` (a value in `[0, 2^32)`); `halInitOk` the outcome of
`HAL_QSPI_Init`.  The C line `int div = HAL_RCC_GetHCLKFreq() / hz;` divides
`uint32_t` by `int`: by the usual arithmetic conversions `hz` is converted to
`uint32_t`, the division is unsigned, and the quotient is then stored into the
`int` variable `div` — the embedding makes both conversions explicit.  The
result is (status, final object, trace of HAL calls performed). -/
def qspi_frequency (halInitOk : Bool) (hclk : Nat) (obj : QspiObj) (hz : Int) :
    QspiStatus × QspiObj × List HalCall :=
  let div : Int := uint32ToInt ((hclk % 4294967296) / intToUInt32 hz)
  if div > 256 ∨ div < 1 then
    (QSPI_STATUS_INVALID_PARAMETER, obj, [])
  else
    let obj := { obj with handle.Init.ClockPrescaler := (div - 1).toNat }
    if halInitOk = false then
      (QSPI_STATUS_ERROR, obj, [halQspiInit])
    else
      (QSPI_STATUS_OK, obj, [halQspiInit])

/-- The CMSIS macro `POSITION_VAL(VAL)` = `__CLZ(__RBIT(VAL))`: the bit
position of the lowest set bit (0 for the value 0, whose C result is 32 via
CLZ of 0; the macro is only applied to the constant 32 here). -/
def POSITION_VAL (x : Nat) : Nat :=
  if h : x = 0 then 0
  else if x % 2 = 1 then 0
  else POSITION_VAL (x / 2) + 1
decreasing_by omega

/-- Shallow embedding of `qspi_init` (qspi_api.c, lines 135-191).

The external collaborators are parameters: `pinmapData`, `pinmapSclk`,
`pinmapSsel` model `pinmap_peripheral` against the three pin maps, `merge`
models `pinmap_merge`, `halInitOk` the outcome of `HAL_QSPI_Init`, and
`freqHalInitOk` / `hclk` feed the nested `qspi_frequency` call.  Pins are
modelled as numbers.  The clock enable / reset macros and `pinmap_pinout`
act only on hardware outside the object and are not modelled.  The result is
(status, final object); note the C code ignores the status returned by the
nested `qspi_frequency` call. -/
def qspi_init (pinmapData pinmapSclk pinmapSsel : Nat → Nat)
    (merge : Nat → Nat → Nat) (halInitOk freqHalInitOk : Bool) (hclk : Nat)
    (obj : QspiObj) (io0 io1 io2 io3 sclk ssel : Nat) (hz : Int) (mode : Nat) :
    QspiStatus × QspiObj :=
  let obj := { obj with
    handle.Init.ClockPrescaler := 1
    handle.Init.FifoThreshold := 1
    handle.Init.SampleShifting := QSPI_SAMPLE_SHIFTING_HALFCYCLE
    handle.Init.FlashSize := POSITION_VAL QSPI_FLASH_SIZE_DEFAULT - 1
    handle.Init.ChipSelectHighTime := QSPI_CS_HIGH_TIME_5_CYCLE
    handle.Init.ClockMode := QSPI_CLOCK_MODE_0 }
  let obj := { obj with
    handle.Init.ClockMode := if mode = 0 then QSPI_CLOCK_MODE_0 else QSPI_CLOCK_MODE_3 }
  let qspiio0name := pinmapData io0
  let qspiio1name := pinmapData io1
  let qspiio2name := pinmapData io2
  let qspiio3name := pinmapData io3
  let qspiclkname := pinmapSclk sclk
  let qspisselname := pinmapSsel ssel
  let qspi_data_first := merge qspiio0name qspiio1name
  let qspi_data_second := merge qspiio2name qspiio3name
  let qspi_data_third := merge qspiclkname qspisselname
  if qspi_data_first ≠ qspi_data_second ∨ qspi_data_second ≠ qspi_data_third ∨
      qspi_data_first ≠ qspi_data_third then
    (QSPI_STATUS_INVALID_PARAMETER, obj)
  else
    let obj := { obj with handle.Instance := qspi_data_first }
    if halInitOk = false then
      (QSPI_STATUS_ERROR, obj)
    else
      let f := qspi_frequency freqHalInitOk hclk obj hz
      (QSPI_STATUS_OK, f.2.1)

/-- The divisor exactly as the specification sentence describes it, for
comparison with the code: the truncating integer division HCLK / hz. -/
def specFreqDiv (hclk : Nat) (hz : Int) : Int :=
  Int.tdiv (hclk : Int) hz

/-! ### Concrete fixtures used by witnesses and counterexamples -/

/-- An all-zero ST command struct, standing for one possible content of the
uninitialised caller-side `QSPI_CommandTypeDef` local. -/
def stZero : QSPI_CommandTypeDef :=
  ⟨0, 0, 0, 0, 0, 0, 0, 0, 0, 0, 0, 0, 0, 0⟩

/-- A second, distinct content for the uninitialised local. -/
def stOnes : QSPI_CommandTypeDef :=
  ⟨1, 1, 1, 1, 1, 1, 1, 1, 1, 1, 1, 1, 1, 1⟩

/-- A representative fully-enabled command descriptor: single-line instruction
0x9F, quad address of size code 2, dual alternate bytes of size code 1,
quad data, 4 dummy cycles. -/
def cmdSample : QspiCommand :=
  ⟨⟨QSPI_CFG_BUS_SINGLE, 0x9F⟩,
   ⟨QSPI_CFG_BUS_QUAD, false, 0x1000, 2⟩,
   ⟨QSPI_CFG_BUS_DUAL, false, 0xA5, 1⟩,
   ⟨QSPI_CFG_BUS_QUAD⟩, 4⟩

/-- A command whose address and alternate-bytes phases are disabled while
still carrying single-line bus widths and nonzero values/sizes. -/
def cmdDisabledPhases : QspiCommand :=
  ⟨⟨QSPI_CFG_BUS_SINGLE, 0x06⟩,
   ⟨QSPI_CFG_BUS_SINGLE, true, 0x2000, 3⟩,
   ⟨QSPI_CFG_BUS_SINGLE, true, 0x5A, 2⟩,
   ⟨QSPI_CFG_BUS_SINGLE⟩, 0⟩

/-- A driver object with a recognisable prescaler value. -/
def objSample : QspiObj :=
  ⟨⟨⟨7, 1, QSPI_SAMPLE_SHIFTING_HALFCYCLE, 4, QSPI_CS_HIGH_TIME_5_CYCLE,
     QSPI_CLOCK_MODE_0⟩, 0x90000000⟩⟩

/-! ### Field-extraction lemmas for `qspi_prepare_command` -/

theorem prepare_InstructionMode (command : QspiCommand) (st0 : QSPI_CommandTypeDef) :
    (qspi_prepare_command command st0).InstructionMode =
      (if command.instruction.bus_width = QSPI_CFG_BUS_SINGLE then QSPI_INSTRUCTION_1_LINE
       else if command.instruction.bus_width = QSPI_CFG_BUS_DUAL then QSPI_INSTRUCTION_2_LINES
       else if command.instruction.bus_width = QSPI_CFG_BUS_QUAD then QSPI_INSTRUCTION_4_LINES
       else QSPI_INSTRUCTION_NONE) := by
  by_cases ha : command.address.disabled = true <;>
    by_cases hb : command.alt.disabled = true <;>
      simp [qspi_prepare_command, ha, hb]

theorem prepare_DataMode (command : QspiCommand) (st0 : QSPI_CommandTypeDef) :
    (qspi_prepare_command command st0).DataMode =
      (if command.data.bus_width = QSPI_CFG_BUS_SINGLE then QSPI_DATA_1_LINE
       else if command.data.bus_width = QSPI_CFG_BUS_DUAL then QSPI_DATA_2_LINES
       else if command.data.bus_width = QSPI_CFG_BUS_QUAD then QSPI_DATA_4_LINES
       else QSPI_DATA_NONE) := by
  by_cases ha : command.address.disabled = true <;>
    by_cases hb : command.alt.disabled = true <;>
      simp [qspi_prepare_command, ha, hb]

theorem prepare_AddressMode (command : QspiCommand) (st0 : QSPI_CommandTypeDef) :
    (qspi_prepare_command command st0).AddressMode =
      (if command.address.disabled = true then QSPI_ADDRESS_NONE
       else if command.address.bus_width = QSPI_CFG_BUS_SINGLE then QSPI_ADDRESS_1_LINE
       else if command.address.bus_width = QSPI_CFG_BUS_DUAL then QSPI_ADDRESS_2_LINES
       else if command.address.bus_width = QSPI_CFG_BUS_QUAD then QSPI_ADDRESS_4_LINES
       else QSPI_ADDRESS_NONE) := by
  by_cases ha : command.address.disabled = true <;>
    by_cases hb : command.alt.disabled = true <;>
      simp [qspi_prepare_command, ha, hb]

theorem prepare_AddressSize (command : QspiCommand) (st0 : QSPI_CommandTypeDef) :
    (qspi_prepare_command command st0).AddressSize =
      (if command.address.disabled = true then 0
       else (command.address.size <<< QUADSPI_CCR_ADSIZE_Pos) &&& QUADSPI_CCR_ADSIZE_Msk) := by
  by_cases ha : command.address.disabled = true <;>
    by_cases hb : command.alt.disabled = true <;>
      simp [qspi_prepare_command, ha, hb]

theorem prepare_AlternateByteMode (command : QspiCommand) (st0 : QSPI_CommandTypeDef) :
    (qspi_prepare_command command st0).AlternateByteMode =
      (if command.alt.disabled = true then QSPI_ALTERNATE_BYTES_NONE
       else if command.alt.bus_width = QSPI_CFG_BUS_SINGLE then QSPI_ALTERNATE_BYTES_1_LINE
       else if command.alt.bus_width = QSPI_CFG_BUS_DUAL then QSPI_ALTERNATE_BYTES_2_LINES
       else if command.alt.bus_width = QSPI_CFG_BUS_QUAD then QSPI_ALTERNATE_BYTES_4_LINES
       else QSPI_ALTERNATE_BYTES_NONE) := by
  by_cases ha : command.address.disabled = true <;>
    by_cases hb : command.alt.disabled = true <;>
      simp [qspi_prepare_command, ha, hb]

theorem prepare_AlternateBytesSize (command : QspiCommand) (st0 : QSPI_CommandTypeDef) :
    (qspi_prepare_command command st0).AlternateBytesSize =
      (if command.alt.disabled = true then 0 else command.alt.size) := by
  by_cases ha : command.address.disabled = true <;>
    by_cases hb : command.alt.disabled = true <;>
      simp [qspi_prepare_command, ha, hb]

theorem prepare_NbData (command : QspiCommand) (st0 : QSPI_CommandTypeDef) :
    (qspi_prepare_command command st0).NbData = 0 := by
  by_cases ha : command.address.disabled = true <;>
    by_cases hb : command.alt.disabled = true <;>
      simp [qspi_prepare_command, ha, hb]

/-! ### Claim theorems -/

/-- C1, counterexample: the claim says QSPI_CFG_BUS_SINGLE maps to the 1-line
mode independently for the address phase, but for a command whose address
phase is disabled while its bus width is QSPI_CFG_BUS_SINGLE,
qspi_prepare_command produces AddressMode = QSPI_ADDRESS_NONE, not the 1-line
mode. -/
theorem C1_counterexample :
    cmdDisabledPhases.address.bus_width = QSPI_CFG_BUS_SINGLE ∧
    (qspi_prepare_command cmdDisabledPhases stZero).AddressMode ≠ QSPI_ADDRESS_1_LINE ∧
    (qspi_prepare_command cmdDisabledPhases stZero).AddressMode = QSPI_ADDRESS_NONE := by
  decide

/-- C1, amended: for every command descriptor and every initial content of the
output struct, qspi_prepare_command maps each phase's enumerated bus width to
the corresponding register field value (QSPI_CFG_BUS_SINGLE to the 1-line
mode, QSPI_CFG_BUS_DUAL to the 2-lines mode, QSPI_CFG_BUS_QUAD to the 4-lines
mode, any other value to the NONE mode) unconditionally for the instruction
and data phases, and for the address and alternate-bytes phases whenever that
phase is not disabled; a disabled address or alternate-bytes phase yields the
NONE mode regardless of its bus width.  The mode fields depend only on the
input descriptor, not on the initial struct contents. -/
theorem C1_bus_width_mapping (command : QspiCommand) (st0 : QSPI_CommandTypeDef) :
    (qspi_prepare_command command st0).InstructionMode =
      (if command.instruction.bus_width = QSPI_CFG_BUS_SINGLE then QSPI_INSTRUCTION_1_LINE
       else if command.instruction.bus_width = QSPI_CFG_BUS_DUAL then QSPI_INSTRUCTION_2_LINES
       else if command.instruction.bus_width = QSPI_CFG_BUS_QUAD then QSPI_INSTRUCTION_4_LINES
       else QSPI_INSTRUCTION_NONE) ∧
    (qspi_prepare_command command st0).DataMode =
      (if command.data.bus_width = QSPI_CFG_BUS_SINGLE then QSPI_DATA_1_LINE
       else if command.data.bus_width = QSPI_CFG_BUS_DUAL then QSPI_DATA_2_LINES
       else if command.data.bus_width = QSPI_CFG_BUS_QUAD then QSPI_DATA_4_LINES
       else QSPI_DATA_NONE) ∧
    (qspi_prepare_command command st0).AddressMode =
      (if command.address.disabled = true then QSPI_ADDRESS_NONE
       else if command.address.bus_width = QSPI_CFG_BUS_SINGLE then QSPI_ADDRESS_1_LINE
       else if command.address.bus_width = QSPI_CFG_BUS_DUAL then QSPI_ADDRESS_2_LINES
       else if command.address.bus_width = QSPI_CFG_BUS_QUAD then QSPI_ADDRESS_4_LINES
       else QSPI_ADDRESS_NONE) ∧
    (qspi_prepare_command command st0).AlternateByteMode =
      (if command.alt.disabled = true then QSPI_ALTERNATE_BYTES_NONE
       else if command.alt.bus_width = QSPI_CFG_BUS_SINGLE then QSPI_ALTERNATE_BYTES_1_LINE
       else if command.alt.bus_width = QSPI_CFG_BUS_DUAL then QSPI_ALTERNATE_BYTES_2_LINES
       else if command.alt.bus_width = QSPI_CFG_BUS_QUAD then QSPI_ALTERNATE_BYTES_4_LINES
       else QSPI_ALTERNATE_BYTES_NONE) :=
  ⟨prepare_InstructionMode command st0, prepare_DataMode command st0,
   prepare_AddressMode command st0, prepare_AlternateByteMode command st0⟩

/-- C5: the enable/disable flag of the address and alternate-bytes phases
overrides their other fields: a disabled address phase yields
AddressMode = QSPI_ADDRESS_NONE and AddressSize = 0, and a disabled
alternate-bytes phase yields AlternateByteMode = QSPI_ALTERNATE_BYTES_NONE and
AlternateBytesSize = 0, regardless of the phase's bus width, value and size
and of the initial struct contents. -/
theorem C5_disabled_phase_override (command : QspiCommand) (st0 : QSPI_CommandTypeDef) :
    (command.address.disabled = true →
      (qspi_prepare_command command st0).AddressMode = QSPI_ADDRESS_NONE ∧
      (qspi_prepare_command command st0).AddressSize = 0) ∧
    (command.alt.disabled = true →
      (qspi_prepare_command command st0).AlternateByteMode = QSPI_ALTERNATE_BYTES_NONE ∧
      (qspi_prepare_command command st0).AlternateBytesSize = 0) := by
  constructor
  · intro h
    rw [prepare_AddressMode, prepare_AddressSize]
    simp [h]
  · intro h
    rw [prepare_AlternateByteMode, prepare_AlternateBytesSize]
    simp [h]

/-- C5, witness: both overrides observed on a concrete command with both
phases disabled but nonzero widths, values and sizes, over nonzero initial
struct contents. -/
theorem C5_disabled_phase_override_witness :
    cmdDisabledPhases.address.disabled = true ∧
    cmdDisabledPhases.alt.disabled = true ∧
    ((qspi_prepare_command cmdDisabledPhases stOnes).AddressMode = QSPI_ADDRESS_NONE ∧
     (qspi_prepare_command cmdDisabledPhases stOnes).AddressSize = 0) ∧
    ((qspi_prepare_command cmdDisabledPhases stOnes).AlternateByteMode =
       QSPI_ALTERNATE_BYTES_NONE ∧
     (qspi_prepare_command cmdDisabledPhases stOnes).AlternateBytesSize = 0) :=
  ⟨by decide, by decide,
   (C5_disabled_phase_override cmdDisabledPhases stOnes).1 (by decide),
   (C5_disabled_phase_override cmdDisabledPhases stOnes).2 (by decide)⟩

/-- C8: for an enabled alternate-bytes phase the final AlternateBytesSize is
the raw command->alt.size (the shifted-and-masked value assigned on the
previous line is immediately overwritten), whereas an enabled address phase
stores AddressSize shifted by QUADSPI_CCR_ADSIZE_Pos and masked with
QUADSPI_CCR_ADSIZE_Msk. -/
theorem C8_alt_size_stored_raw (command : QspiCommand) (st0 : QSPI_CommandTypeDef) :
    (command.alt.disabled = false →
      (qspi_prepare_command command st0).AlternateBytesSize = command.alt.size) ∧
    (command.address.disabled = false →
      (qspi_prepare_command command st0).AddressSize =
        (command.address.size <<< QUADSPI_CCR_ADSIZE_Pos) &&& QUADSPI_CCR_ADSIZE_Msk) := by
  constructor
  · intro h
    rw [prepare_AlternateBytesSize]
    simp [h]
  · intro h
    rw [prepare_AddressSize]
    simp [h]

/-- C8, witness: on the sample command (alt.size = 1, address.size = 2) the
alternate-bytes size comes out raw (1, not the shifted 0x10000) while the
address size comes out shifted (0x2000). -/
theorem C8_alt_size_stored_raw_witness :
    cmdSample.alt.disabled = false ∧
    cmdSample.address.disabled = false ∧
    (qspi_prepare_command cmdSample stZero).AlternateBytesSize = cmdSample.alt.size ∧
    (qspi_prepare_command cmdSample stZero).AddressSize =
      (cmdSample.address.size <<< QUADSPI_CCR_ADSIZE_Pos) &&& QUADSPI_CCR_ADSIZE_Msk ∧
    (cmdSample.alt.size <<< QUADSPI_CCR_ABSIZE_Pos) &&& QUADSPI_CCR_ABSIZE_Msk ≠
      cmdSample.alt.size :=
  ⟨by decide, by decide,
   (C8_alt_size_stored_raw cmdSample stZero).1 (by decide),
   (C8_alt_size_stored_raw cmdSample stZero).2 (by decide),
   by decide⟩

/-- C9: qspi_write and qspi_read never modify the caller's length variable:
whatever the HAL outcomes, on return it holds the value passed in, and that
value was used once, as the transfer's NbData. -/
theorem C9_length_not_modified (commandOk transmitOk receiveOk : Bool)
    (command : QspiCommand) (st0 : QSPI_CommandTypeDef) (length : Nat) :
    (qspi_write commandOk transmitOk command st0 length).2.1 = length ∧
    (qspi_write commandOk transmitOk command st0 length).2.2.1.NbData = length ∧
    (qspi_read commandOk receiveOk command st0 length).2.1 = length ∧
    (qspi_read commandOk receiveOk command st0 length).2.2.1.NbData = length := by
  cases commandOk <;> cases transmitOk <;> cases receiveOk <;>
    simp [qspi_write, qspi_read]

/-- C10: qspi_free reports failure on every input and leaves the object
unchanged: it returns QSPI_STATUS_ERROR and performs no action. -/
theorem C10_free_always_error (obj : QspiObj) :
    qspi_free obj = (QSPI_STATUS_ERROR, obj) :=
  rfl

/-! ### HAL-call counting and status enumeration -/

theorem write_trace_le_two (commandOk transmitOk : Bool) (command : QspiCommand)
    (st0 : QSPI_CommandTypeDef) (length : Nat) :
    (qspi_write commandOk transmitOk command st0 length).2.2.2.length ≤ 2 := by
  cases commandOk <;> cases transmitOk <;> simp [qspi_write]

theorem read_trace_le_two (commandOk receiveOk : Bool) (command : QspiCommand)
    (st0 : QSPI_CommandTypeDef) (length : Nat) :
    (qspi_read commandOk receiveOk command st0 length).2.2.2.length ≤ 2 := by
  cases commandOk <;> cases receiveOk <;> simp [qspi_read]

/-- C2, counterexample: with both a transmit and a receive buffer present and
every HAL call succeeding, qspi_command_transfer issues four blocking HAL
calls, not at most two. -/
theorem C2_counterexample :
    (qspi_command_transfer true true true true cmdSample stZero stZero stZero
        false 4 false 4).2.length = 4 ∧
    ¬ (qspi_command_transfer true true true true cmdSample stZero stZero stZero
        false 4 false 4).2.length ≤ 2 := by
  decide

/-- C2, amended: qspi_write and qspi_read each issue at most two blocking HAL
calls, qspi_frequency at most one, and qspi_command_transfer at most four
(one in the command-only path, and up to two for each of its write and read
sub-operations), every one guarded by HAL_QPSI_TIMEOUT_DEFAULT_VALUE. -/
theorem C2_hal_call_bounds (wCommandOk wTransmitOk rCommandOk rReceiveOk halInitOk : Bool)
    (command : QspiCommand) (stC stW stR st0 : QSPI_CommandTypeDef)
    (length txSize rxSize : Nat) (txNull rxNull : Bool)
    (hclk : Nat) (obj : QspiObj) (hz : Int) :
    (qspi_write wCommandOk wTransmitOk command st0 length).2.2.2.length ≤ 2 ∧
    (qspi_read rCommandOk rReceiveOk command st0 length).2.2.2.length ≤ 2 ∧
    (qspi_frequency halInitOk hclk obj hz).2.2.length ≤ 1 ∧
    (qspi_command_transfer wCommandOk wTransmitOk rCommandOk rReceiveOk command
        stC stW stR txNull txSize rxNull rxSize).2.length ≤ 4 := by
  refine ⟨write_trace_le_two _ _ _ _ _, read_trace_le_two _ _ _ _ _, ?_, ?_⟩
  · unfold qspi_frequency
    by_cases h : 256 < uint32ToInt (hclk % 4294967296 / intToUInt32 hz) ∨
        uint32ToInt (hclk % 4294967296 / intToUInt32 hz) < 1 <;>
      cases halInitOk <;> simp [h]
  · have hw := write_trace_le_two wCommandOk wTransmitOk command stW txSize
    have hr := read_trace_le_two rCommandOk rReceiveOk command stR rxSize
    simp only [qspi_command_transfer]
    split_ifs <;> simp <;> omega

/-- C3: failure propagates by immediate return with no retry: when
HAL_QSPI_Command fails, qspi_write and qspi_read return QSPI_STATUS_ERROR
having issued only that one HAL call (no transmit, no receive), and when the
transmit sub-operation of qspi_command_transfer fails, the function returns
that error status without ever invoking HAL_QSPI_Receive. -/
theorem C3_fail_fast (wCommandOk wTransmitOk rCommandOk rReceiveOk transmitOk receiveOk : Bool)
    (command : QspiCommand) (stC stW stR st0 : QSPI_CommandTypeDef)
    (length txSize rxSize : Nat) (txNull rxNull : Bool) :
    ((qspi_write false transmitOk command st0 length).1 = QSPI_STATUS_ERROR ∧
     (qspi_write false transmitOk command st0 length).2.2.2 = [halQspiCommand]) ∧
    ((qspi_read false receiveOk command st0 length).1 = QSPI_STATUS_ERROR ∧
     (qspi_read false receiveOk command st0 length).2.2.2 = [halQspiCommand]) ∧
    (txNull = false → txSize ≠ 0 →
      (qspi_write wCommandOk wTransmitOk command stW txSize).1 ≠ QSPI_STATUS_OK →
      (qspi_command_transfer wCommandOk wTransmitOk rCommandOk rReceiveOk command
          stC stW stR txNull txSize rxNull rxSize).1 = QSPI_STATUS_ERROR ∧
      halQspiReceive ∉ (qspi_command_transfer wCommandOk wTransmitOk rCommandOk rReceiveOk
          command stC stW stR txNull txSize rxNull rxSize).2) := by
  refine ⟨⟨by simp [qspi_write], by simp [qspi_write]⟩,
    ⟨by simp [qspi_read], by simp [qspi_read]⟩, ?_⟩
  intro h1 h2 h3
  subst h1
  cases wCommandOk <;> cases wTransmitOk <;>
    simp_all [qspi_command_transfer, qspi_write, h2]

/-- C3, witness: the transmit step of qspi_command_transfer fails (the
HAL_QSPI_Transmit call of the write sub-operation returns an error) on a
transfer with both buffers present; the function returns QSPI_STATUS_ERROR
and its HAL-call trace contains no HAL_QSPI_Receive. -/
theorem C3_fail_fast_witness :
    (false : Bool) = false ∧ (4 : Nat) ≠ 0 ∧
    (qspi_write true false cmdSample stZero 4).1 ≠ QSPI_STATUS_OK ∧
    ((qspi_command_transfer true false true true cmdSample stZero stZero stZero
        false 4 false 4).1 = QSPI_STATUS_ERROR ∧
     halQspiReceive ∉ (qspi_command_transfer true false true true cmdSample stZero stZero
        stZero false 4 false 4).2) :=
  ⟨rfl, by decide, by decide,
   (C3_fail_fast true false true true false false cmdSample stZero stZero stZero stZero
      4 4 4 false false).2.2 rfl (by decide) (by decide)⟩

theorem qspi_status_trichotomy (s : QspiStatus) :
    s = QSPI_STATUS_OK ∨ s = QSPI_STATUS_ERROR ∨ s = QSPI_STATUS_INVALID_PARAMETER := by
  cases s <;> simp

/-- C4: every HAL-layer operation returns synchronously and its result is one
of exactly the three status codes QSPI_STATUS_OK, QSPI_STATUS_ERROR and
QSPI_STATUS_INVALID_PARAMETER, for qspi_init, qspi_free, qspi_frequency,
qspi_write, qspi_read and qspi_command_transfer alike. -/
theorem C4_status_enumeration (pinmapData pinmapSclk pinmapSsel : Nat → Nat)
    (merge : Nat → Nat → Nat)
    (halInitOk freqHalInitOk wCommandOk wTransmitOk rCommandOk rReceiveOk : Bool)
    (hclk : Nat) (obj : QspiObj) (io0 io1 io2 io3 sclk ssel : Nat) (hz : Int) (mode : Nat)
    (command : QspiCommand) (stC stW stR st0 : QSPI_CommandTypeDef)
    (length txSize rxSize : Nat) (txNull rxNull : Bool) :
    (let s := (qspi_init pinmapData pinmapSclk pinmapSsel merge halInitOk freqHalInitOk
        hclk obj io0 io1 io2 io3 sclk ssel hz mode).1
     s = QSPI_STATUS_OK ∨ s = QSPI_STATUS_ERROR ∨ s = QSPI_STATUS_INVALID_PARAMETER) ∧
    (let s := (qspi_free obj).1
     s = QSPI_STATUS_OK ∨ s = QSPI_STATUS_ERROR ∨ s = QSPI_STATUS_INVALID_PARAMETER) ∧
    (let s := (qspi_frequency halInitOk hclk obj hz).1
     s = QSPI_STATUS_OK ∨ s = QSPI_STATUS_ERROR ∨ s = QSPI_STATUS_INVALID_PARAMETER) ∧
    (let s := (qspi_write wCommandOk wTransmitOk command st0 length).1
     s = QSPI_STATUS_OK ∨ s = QSPI_STATUS_ERROR ∨ s = QSPI_STATUS_INVALID_PARAMETER) ∧
    (let s := (qspi_read rCommandOk rReceiveOk command st0 length).1
     s = QSPI_STATUS_OK ∨ s = QSPI_STATUS_ERROR ∨ s = QSPI_STATUS_INVALID_PARAMETER) ∧
    (let s := (qspi_command_transfer wCommandOk wTransmitOk rCommandOk rReceiveOk command
        stC stW stR txNull txSize rxNull rxSize).1
     s = QSPI_STATUS_OK ∨ s = QSPI_STATUS_ERROR ∨ s = QSPI_STATUS_INVALID_PARAMETER) :=
  ⟨qspi_status_trichotomy _, qspi_status_trichotomy _, qspi_status_trichotomy _,
   qspi_status_trichotomy _, qspi_status_trichotomy _, qspi_status_trichotomy _⟩

/-- C6, counterexample: the claim reads the divisor computation as truncating
integer division, but the C expression divides `uint32_t` by `int`, so `hz` is
converted to `uint32_t` first.  For hclk = 4294967295 and hz = -2147483648 the
truncating division yields -1 < 1, so the claim demands
QSPI_STATUS_INVALID_PARAMETER with the prescaler left unchanged; the code
instead computes the unsigned quotient 1, accepts it, and overwrites the
prescaler with 0. -/
theorem C6_counterexample :
    specFreqDiv 4294967295 (-2147483648) < 1 ∧
    (qspi_frequency true 4294967295 objSample (-2147483648)).1 ≠
      QSPI_STATUS_INVALID_PARAMETER ∧
    (qspi_frequency true 4294967295 objSample (-2147483648)).2.1.handle.Init.ClockPrescaler ≠
      objSample.handle.Init.ClockPrescaler := by
  decide

/-- C6, amended: for every requested frequency hz ≥ 1 (in the 32-bit int
range, with HCLK in the 32-bit unsigned range, where the C unsigned division
agrees observably with the claimed truncating division), qspi_frequency
computes div = HCLK / hz and returns QSPI_STATUS_INVALID_PARAMETER exactly
when div < 1 or div > 256, leaving the object (in particular its
ClockPrescaler) unchanged and issuing no HAL call in that case; otherwise it
stores ClockPrescaler = div - 1 and then reinitialises the peripheral with a
single HAL_QSPI_Init call. -/
theorem C6_frequency_divisor (halInitOk : Bool) (hclk : Nat) (obj : QspiObj) (hz : Int)
    (hhz1 : 1 ≤ hz) (hhz2 : hz < 2147483648) (hhclk : hclk < 4294967296) :
    ((qspi_frequency halInitOk hclk obj hz).1 = QSPI_STATUS_INVALID_PARAMETER ↔
      (specFreqDiv hclk hz < 1 ∨ 256 < specFreqDiv hclk hz)) ∧
    ((specFreqDiv hclk hz < 1 ∨ 256 < specFreqDiv hclk hz) →
      (qspi_frequency halInitOk hclk obj hz).2.1 = obj ∧
      (qspi_frequency halInitOk hclk obj hz).2.2 = []) ∧
    (1 ≤ specFreqDiv hclk hz ∧ specFreqDiv hclk hz ≤ 256 →
      (qspi_frequency halInitOk hclk obj hz).2.1.handle.Init.ClockPrescaler =
        (specFreqDiv hclk hz - 1).toNat ∧
      (qspi_frequency halInitOk hclk obj hz).2.2 = [halQspiInit]) := by
  have h0 : (0 : Int) ≤ hz := by omega
  obtain ⟨n, rfl⟩ := Int.eq_ofNat_of_zero_le h0
  have hn1 : 1 ≤ n := by exact_mod_cast hhz1
  have hn2 : n < 2147483648 := by exact_mod_cast hhz2
  have hspec : specFreqDiv hclk (n : Int) = ((hclk / n : Nat) : Int) := rfl
  have hint : intToUInt32 (n : Int) = n := by
    unfold intToUInt32
    rw [Int.emod_eq_of_lt (by omega) (by omega)]
    simp
  have hclkmod : hclk % 4294967296 = hclk := Nat.mod_eq_of_lt hhclk
  have hule : hclk / n < 4294967296 := lt_of_le_of_lt (Nat.div_le_self _ _) hhclk
  have humod : (hclk / n) % 4294967296 = hclk / n := Nat.mod_eq_of_lt hule
  rw [hspec]
  unfold qspi_frequency uint32ToInt
  rw [hclkmod, hint, humod]
  generalize hu : hclk / n = u at hule ⊢
  by_cases hsmall : u < 2147483648
  · rw [if_pos hsmall]
    by_cases hc : (256 : Int) < ((u : Nat) : Int) ∨ ((u : Nat) : Int) < 1
    · rw [if_pos hc]
      refine ⟨by simp; omega, fun _ => ⟨rfl, rfl⟩, ?_⟩
      intro hcon
      exfalso
      omega
    · rw [if_neg hc]
      refine ⟨?_, fun hcon => absurd hcon (by omega), ?_⟩
      · cases halInitOk <;> simp <;> omega
      · intro hcon
        cases halInitOk <;> exact ⟨by simp, by simp⟩
  · rw [if_neg hsmall]
    have hcond : (256 : Int) < ((u : Nat) : Int) - 4294967296 ∨
        ((u : Nat) : Int) - 4294967296 < 1 := by
      right
      omega
    rw [if_pos hcond]
    refine ⟨?_, fun _ => ⟨rfl, rfl⟩, ?_⟩
    · simp
      omega
    · intro hcon
      exfalso
      omega

/-- C6, witness: at HCLK = 32 MHz and hz = 1 MHz the divisor is 32, the call
is accepted, the prescaler becomes 31 and exactly one HAL_QSPI_Init call is
made. -/
theorem C6_frequency_divisor_witness :
    (1 : Int) ≤ 1000000 ∧ (1000000 : Int) < 2147483648 ∧
    (32000000 : Nat) < 4294967296 ∧
    (((qspi_frequency true 32000000 objSample 1000000).1 =
        QSPI_STATUS_INVALID_PARAMETER ↔
      (specFreqDiv 32000000 1000000 < 1 ∨ 256 < specFreqDiv 32000000 1000000)) ∧
    ((specFreqDiv 32000000 1000000 < 1 ∨ 256 < specFreqDiv 32000000 1000000) →
      (qspi_frequency true 32000000 objSample 1000000).2.1 = objSample ∧
      (qspi_frequency true 32000000 objSample 1000000).2.2 = []) ∧
    (1 ≤ specFreqDiv 32000000 1000000 ∧ specFreqDiv 32000000 1000000 ≤ 256 →
      (qspi_frequency true 32000000 objSample 1000000).2.1.handle.Init.ClockPrescaler =
        (specFreqDiv 32000000 1000000 - 1).toNat ∧
      (qspi_frequency true 32000000 objSample 1000000).2.2 = [halQspiInit])) :=
  ⟨by decide, by decide, by decide,
   C6_frequency_divisor true 32000000 objSample 1000000 (by decide) (by decide) (by decide)⟩

end QspiModel
